import Mathlib

/-!
Shallow embedding of the conversational task-tracker bot
(internal/app/bot.go together with internal/model) and proofs about the
frozen specification claims.  Timestamps are modelled as seconds since
the Unix epoch (Int); the Go zero time value of a deadline is modelled
as Option.none.  String-typed Go enums (TaskStatus, UserProjectRole)
are kept as strings, mirroring the source.
-/

namespace TasksBot

/-- Storage-layer failures: model.ErrUserNotFound / model.ErrProjectNotFound
versus any other (infrastructure) error. -/
inductive FetchErr where
  | notFound
  | storage
deriving DecidableEq, Repr

/-- model.UserProjectRole is a string type in the source. -/
abbrev UserProjectRole := String

def userProjectRoleManager : UserProjectRole := "manager"
def userProjectRoleMember : UserProjectRole := "member"

/-- model.TaskStatus is a string type in the source. -/
abbrev TaskStatus := String

def taskStatusBacklog : TaskStatus := "backlog"
def taskStatusTODO : TaskStatus := "todo"
def taskStatusInProgress : TaskStatus := "in_progress"
def taskStatusDone : TaskStatus := "done"
def taskStatusCancelled : TaskStatus := "cancelled"
def taskStatusOnHold : TaskStatus := "on_hold"

/-- model.User (current variant: ID, TgUserID, FullName, Username, IsActive). -/
structure User where
  id : Int
  tgUserID : Int
  fullName : String
  username : String
  isActive : Bool
deriving DecidableEq, Repr

/-- model.Project. -/
structure Project where
  id : Int
  tgChatID : Int
  title : String
  description : String
  archived : Bool
deriving DecidableEq, Repr

/-- model.Task.  deadline = none models the Go zero time.Time (IsZero);
updatedAt is the last-updated timestamp used by filterRecentTasks. -/
structure Task where
  id : Int
  projectID : Int
  title : String
  description : String
  status : TaskStatus
  deadline : Option Int
  createdBy : Int
  updatedBy : Int
  assignee : Int
  updatedAt : Int
deriving DecidableEq, Repr

/-- model.NewTask: sets ProjectID, Title, CreatedBy, UpdatedBy, leaving the
remaining fields at their Go zero values. -/
def NewTask (projectID : Int) (title : String) (createdBy : Int) : Task :=
  { id := 0
    projectID := projectID
    title := title
    description := ""
    status := ""
    deadline := none
    createdBy := createdBy
    updatedBy := createdBy
    assignee := 0
    updatedAt := 0 }

/-- The keep-condition of filterRecentTasks: status is not Done/Cancelled, or
the task was updated strictly after now minus three days
(time.Now().AddDate(0, 0, -3); task.UpdatedAt.After is strict). -/
def keepRecent (now : Int) (task : Task) : Bool :=
  (task.status ≠ taskStatusDone && task.status ≠ taskStatusCancelled) ||
    now - 3 * 86400 < task.updatedAt

/-- filterRecentTasks (bot.go): appends exactly the tasks satisfying
keepRecent, preserving order.  time.Now() is passed explicitly. -/
def filterRecentTasks (now : Int) (tasks : List Task) : List Task :=
  tasks.filter (keepRecent now)

/-- unicode.IsSpace: the complete set of Unicode white-space characters
(tab, line feed, vertical tab, form feed, carriage return, space, NEL,
NBSP, and the Unicode space separators), exactly the characters
strings.TrimSpace removes. -/
def isUnicodeSpace (c : Char) : Bool :=
  c.toNat = 9 || c.toNat = 10 || c.toNat = 11 || c.toNat = 12 || c.toNat = 13 ||
  c.toNat = 32 || c.toNat = 0x85 || c.toNat = 0xA0 || c.toNat = 0x1680 ||
  (0x2000 ≤ c.toNat && c.toNat ≤ 0x200A) ||
  c.toNat = 0x2028 || c.toNat = 0x2029 || c.toNat = 0x202F ||
  c.toNat = 0x205F || c.toNat = 0x3000

/-- strings.TrimSpace: removes leading and trailing Unicode whitespace. -/
def trimSpace (s : String) : String :=
  String.mk (((s.toList.dropWhile isUnicodeSpace).reverse.dropWhile
    isUnicodeSpace).reverse)

/-- unicode.ToLower on the scripts that can reach the self-assignment
shortcut alphabet: ASCII capitals and the Cyrillic capitals U+0400-U+042F
are lowercased by the standard simple case mapping; every other character
is left unchanged.  strings.ToLower lowercases further scripts, but the
shortcut strings consist solely of ASCII and Cyrillic U+0430-U+044F
lowercase letters, such letters are fixed by both mappings, and no
character outside the handled ranges has its lowercase image among them
(the only special cross-script mappings, Kelvin sign to k and dotted
capital I to i, produce letters the shortcuts do not contain), so the
restriction cannot change the outcome of the equality comparison in
isSelfAssignment for any input. -/
def lowerChar (c : Char) : Char :=
  if 65 ≤ c.toNat && c.toNat ≤ 90 then Char.ofNat (c.toNat + 32)
  else if 0x410 ≤ c.toNat && c.toNat ≤ 0x42F then Char.ofNat (c.toNat + 32)
  else if 0x400 ≤ c.toNat && c.toNat ≤ 0x40F then Char.ofNat (c.toNat + 80)
  else c

/-- strings.ToLower: lowercases every character (via lowerChar). -/
def toLowerStr (s : String) : String :=
  String.mk (s.toList.map lowerChar)

/-- isSelfAssignment (bot.go): case-insensitive comparison of the trimmed
text against the self-assignment shortcut synonyms. -/
def isSelfAssignment (text : String) : Bool :=
  let selfShortcuts : List String :=
    ["me", "self", "myself", "я", "мне", "мое", "себе"]
  let lowercaseText := toLowerStr (trimSpace text)
  selfShortcuts.any (fun shortcut => lowercaseText == shortcut)

/-- Word character of the Go regexp class used in the mention pattern:
ASCII letter, digit or underscore. -/
def isWordChar (c : Char) : Bool :=
  c.isAlphanum || c = '_'

/-- Auxiliary scanner over the character list for extractMention. -/
def findMention : List Char → Option String
  | [] => none
  | '@' :: rest =>
      let run := rest.takeWhile isWordChar
      if run.isEmpty then findMention rest else some (String.mk run)
  | _ :: rest => findMention rest

/-- The first capture of the Go mention regexp (an at-sign followed by one
or more word characters, leftmost match, longest run), or none when the
text holds no mention token. -/
def extractMention (text : String) : Option String :=
  findMention text.toList

/-- Parses a run of exactly n ASCII digits as a number, mirroring the
fixed-width numeric fields of the Go time layout "02.01.2006". -/
def parseFixedDigits (n : Nat) (cs : List Char) : Option Nat :=
  if cs.length = n && cs.all Char.isDigit then
    some (cs.foldl (fun acc c => acc * 10 + (c.toNat - 48)) 0)
  else
    none

/-- Splits a character list at every dot, keeping empty segments:
the literal separators of the Go time layout "02.01.2006". -/
def splitOnDotAux : List Char → List Char → List (List Char)
  | [], acc => [acc.reverse]
  | c :: rest, acc =>
      if c = '.' then acc.reverse :: splitOnDotAux rest []
      else splitOnDotAux rest (c :: acc)

/-- Gregorian leap-year test used for day-of-month validation. -/
def isLeapYear (y : Int) : Bool :=
  y % 4 = 0 && (y % 100 ≠ 0 || y % 400 = 0)

/-- Number of days of month m in year y (m between 1 and 12). -/
def daysInMonth (y : Int) (m : Nat) : Nat :=
  if m = 2 then
    if isLeapYear y then 29 else 28
  else if m = 4 || m = 6 || m = 9 || m = 11 then 30
  else 31

/-- Day count of the civil date y-m-d relative to 1970-01-01 (the standard
days-from-civil computation), matching the UTC day index of the time value
produced by the Go date parse. -/
def daysFromCivil (y : Int) (m d : Nat) : Int :=
  let y' : Int := if m ≤ 2 then y - 1 else y
  let era : Int := y'.fdiv 400
  let yoe : Int := y' - era * 400
  let mp : Int := if m > 2 then (m : Int) - 3 else (m : Int) + 9
  let doy : Int := (153 * mp + 2).fdiv 5 + (d : Int) - 1
  let doe : Int := yoe * 365 + yoe.fdiv 4 - yoe.fdiv 100 + doy
  era * 146097 + doe - 719468

/-- time.Parse with layout "02.01.2006" (fixed two-digit day and month,
four-digit year, literal dots, whole input consumed, ranges validated),
returning the parsed date as seconds at UTC midnight. -/
def parseDDMMYYYY (s : String) : Option Int :=
  match splitOnDotAux s.toList [] with
  | [ds, ms, ys] =>
      match parseFixedDigits 2 ds, parseFixedDigits 2 ms, parseFixedDigits 4 ys with
      | some d, some m, some y =>
          if 1 ≤ m && m ≤ 12 && 1 ≤ d && d ≤ daysInMonth (y : Int) m then
            some (86400 * daysFromCivil (y : Int) m d)
          else
            none
      | _, _, _ => none
  | _ => none

/-- time.Now().Truncate(24 * time.Hour): rounds the clock down to the
enclosing UTC midnight. -/
def truncateDay (now : Int) : Int :=
  86400 * now.fdiv 86400

/-- The storage collaborators and transport identity the handlers consult:
the repository fetchers (fallible, distinguishing not-found from other
failures), the success of the mutating calls, the bot's own username and
the current clock.  This is the read side of Bot's injected
projectStorage/userStorage/taskStorage plus b.api.Self.UserName. -/
structure Storage where
  fetchProjectByChatID : Int → Except FetchErr Project
  fetchUserByTgID : Int → Except FetchErr User
  fetchUserByID : Int → Except FetchErr User
  fetchUserByUsername : String → Except FetchErr User
  fetchUserRoleInProject : Int → Int → Except FetchErr UserProjectRole
  getTaskByID : Int → Except FetchErr Task
  createTaskOk : Bool
  updateTaskOk : Bool
  updateProjectOk : Bool
  botUserName : String
  now : Int

/-- TaskCreationStep (bot.go). -/
inductive TaskCreationStep where
  | title
  | description
  | assignee
  | deadline
deriving DecidableEq, Repr

/-- TaskCreationState (bot.go). -/
structure TaskCreationState where
  step : TaskCreationStep
  projectID : Int
  title : String
  description : String
  createdBy : Int
  assignee : Int
deriving DecidableEq, Repr

/-- The distinct user-visible replies (or propagated errors) a task-creation
handler call can produce. -/
inductive CreationMsg where
  | cancelledCreation
  | emptyTitle
  | promptDescription
  | promptAssignee
  | cannotAssignBot
  | assigneeUserNotFound
  | assigneeNotMember
  | promptDeadline
  | invalidDate
  | pastDeadline
  | createFailed
  | createdOk
  | errPropagated
deriving DecidableEq, Repr

/-- Observable outcome of one task-creation handler call: the session map
entry for the user afterwards (none = deleted), the task successfully
persisted through CreateTask (if any), and the reply sent. -/
structure CreationResult where
  session : Option TaskCreationState
  created : Option Task
  msg : CreationMsg
deriving DecidableEq, Repr

/-- The task finalizeTaskCreation assembles from the accumulated state:
model.NewTask plus description, status Todo, assignee, and a deadline. -/
def creationTask (state : TaskCreationState) (deadline : Option Int) : Task :=
  { NewTask state.projectID state.title state.createdBy with
    description := state.description
    status := taskStatusTODO
    assignee := state.assignee
    deadline := deadline }

/-- The shared tail of finalizeTaskCreation: CreateTask, with the session
entry deleted on success and failure alike. -/
def persistCreation (env : Storage) (task : Task) : CreationResult :=
  if env.createTaskOk then
    { session := none, created := some task, msg := .createdOk }
  else
    { session := none, created := none, msg := .createFailed }

/-- finalizeTaskCreation (bot.go): builds the task from the state; a
non-skip deadline text is parsed in the fixed day-month-year format,
rejected with a re-prompt when invalid or strictly before the truncated
current day, and otherwise stored shifted to 23:59:59 of the parsed day;
then the task is persisted and the session cleared. -/
def finalizeTaskCreation (env : Storage) (state : TaskCreationState)
    (deadlineText : String) : CreationResult :=
  let task := creationTask state none
  if deadlineText ≠ "-" && deadlineText ≠ "" then
    match parseDDMMYYYY deadlineText with
    | none => { session := some state, created := none, msg := .invalidDate }
    | some deadline =>
        if deadline < truncateDay env.now then
          { session := some state, created := none, msg := .pastDeadline }
        else
          persistCreation env
            { task with deadline := some (deadline + (23 * 3600 + 59 * 60 + 59)) }
  else
    persistCreation env task

/-- Advancing the creation state to the deadline step and showing the
deadline prompt (state.Step = TaskStepDeadline; showDeadlineSelection). -/
def advanceToDeadline (state : TaskCreationState) : CreationResult :=
  { session := some { state with step := .deadline }
    created := none
    msg := .promptDeadline }

/-- handleAssigneeStep (bot.go): a non-skip, non-empty text is tried as a
self-assignment shortcut, then as a mention; a mention naming the bot, an
unknown username, or a user without a role row in the project each produce
an error reply that leaves the state untouched; any other text (and the
skip sentinel) falls through to the deadline step. -/
def handleAssigneeStep (env : Storage) (state : TaskCreationState)
    (userID : Int) (assigneeText : String) : CreationResult :=
  if assigneeText ≠ "-" && assigneeText ≠ "" then
    if isSelfAssignment assigneeText then
      match env.fetchUserByTgID userID with
      | .error _ => { session := some state, created := none, msg := .errPropagated }
      | .ok currentUser => advanceToDeadline { state with assignee := currentUser.id }
    else
      match extractMention assigneeText with
      | some username =>
          if username = env.botUserName then
            { session := some state, created := none, msg := .cannotAssignBot }
          else
            match env.fetchUserByUsername username with
            | .error .notFound =>
                { session := some state, created := none, msg := .assigneeUserNotFound }
            | .error .storage =>
                { session := some state, created := none, msg := .errPropagated }
            | .ok assigneeUser =>
                match env.fetchUserRoleInProject state.projectID assigneeUser.id with
                | .error .notFound =>
                    { session := some state, created := none, msg := .assigneeNotMember }
                | .error .storage =>
                    { session := some state, created := none, msg := .errPropagated }
                | .ok _ => advanceToDeadline { state with assignee := assigneeUser.id }
      | none => advanceToDeadline state
  else
    advanceToDeadline state

/-- handleTaskCreationMessage (bot.go): trims the text, handles the cancel
keywords first (deleting the session unconditionally), then dispatches on
the current step. -/
def handleTaskCreationMessage (env : Storage) (state : TaskCreationState)
    (userID : Int) (rawText : String) : CreationResult :=
  let text := trimSpace rawText
  if text = "/cancel" || text = "отмена" then
    { session := none, created := none, msg := .cancelledCreation }
  else
    match state.step with
    | .title =>
        if text = "" then
          { session := some state, created := none, msg := .emptyTitle }
        else
          { session := some { state with title := text, step := .description }
            created := none
            msg := .promptDescription }
    | .description =>
        let state' := if text ≠ "-" then { state with description := text } else state
        { session := some { state' with step := .assignee }
          created := none
          msg := .promptAssignee }
    | .assignee => handleAssigneeStep env state userID text
    | .deadline => finalizeTaskCreation env state text

/-- isUserManager (bot.go): resolves the project by chat, the user by
platform id, then the user's role in the project, propagating every lookup
failure (including a missing role row) as an error; on success it reports
whether the role is Manager. -/
def isUserManager (env : Storage) (chatID userID : Int) : Except FetchErr Bool :=
  match env.fetchProjectByChatID chatID with
  | .error e => .error e
  | .ok project =>
      match env.fetchUserByTgID userID with
      | .error e => .error e
      | .ok user =>
          match env.fetchUserRoleInProject project.id user.id with
          | .error e => .error e
          | .ok userRole => .ok (userRole = userProjectRoleManager)

/-- How the manager gate of a privileged handler resolves: a propagated
internal error, a user-visible denial message, or admission. -/
inductive AuthOutcome where
  | err (e : FetchErr)
  | denied
  | allowed
deriving DecidableEq, Repr

/-- The authorization prologue of showProjectTasks (bot.go): an
isUserManager error is returned to the dispatcher (logged, no reply); a
non-manager result sends the denial message; a manager proceeds to the
listing. -/
def showProjectTasksAuth (env : Storage) (chatID userID : Int) : AuthOutcome :=
  match isUserManager env chatID userID with
  | .error e => .err e
  | .ok false => .denied
  | .ok true => .allowed

/-- TaskEditField (bot.go). -/
inductive TaskEditField where
  | title
  | description
  | status
  | deadline
  | assignee
deriving DecidableEq, Repr

/-- TaskEditState (bot.go). -/
structure TaskEditState where
  field : TaskEditField
  taskID : Int
deriving DecidableEq, Repr

/-- The distinct user-visible replies (or propagated errors) a task-edit
handler call can produce. -/
inductive EditMsg where
  | cancelledEdit
  | emptyValue
  | taskFetchError
  | statusViaButtons
  | notProjectMember
  | cannotAssignBot
  | userNotFoundByUsername
  | invalidFormat
  | updateFailed
  | updated
  | errPropagated
deriving DecidableEq, Repr

/-- Observable outcome of one task-edit handler call: the edit-session map
entry afterwards (none = deleted), the task successfully persisted through
UpdateTask (if any), and the reply sent. -/
structure EditResult where
  session : Option TaskEditState
  persisted : Option Task
  msg : EditMsg
deriving DecidableEq, Repr

/-- The shared tail of updateTaskField: UpdateTask, with the session entry
deleted on success and failure alike. -/
def persistEdit (env : Storage) (task : Task) : EditResult :=
  if env.updateTaskOk then
    { session := none, persisted := some task, msg := .updated }
  else
    { session := none, persisted := none, msg := .updateFailed }

/-- updateTaskField (bot.go): fetches the task (clearing the session on
failure), applies the single-field change.  Status rejects text input and
clears the session.  Deadline leaves the task unchanged (the source skips
date parsing) and persists.  Assignee resolves the self shortcut or a
mention, clearing the session on the bot-identity, unknown-username and
non-member failures, preserving it only for text with no mention token and
for propagated storage errors; a resolved assignee is persisted. -/
def updateTaskField (env : Storage) (state : TaskEditState) (userID : Int)
    (newValue : String) : EditResult :=
  match env.getTaskByID state.taskID with
  | .error _ => { session := none, persisted := none, msg := .taskFetchError }
  | .ok task =>
      match state.field with
      | .title => persistEdit env { task with title := newValue }
      | .description => persistEdit env { task with description := newValue }
      | .status => { session := none, persisted := none, msg := .statusViaButtons }
      | .deadline => persistEdit env task
      | .assignee =>
          if isSelfAssignment newValue then
            match env.fetchUserByTgID userID with
            | .error _ =>
                { session := some state, persisted := none, msg := .errPropagated }
            | .ok currentUser =>
                match env.getTaskByID state.taskID with
                | .error _ =>
                    { session := some state, persisted := none, msg := .errPropagated }
                | .ok projectTask =>
                    match env.fetchUserRoleInProject projectTask.projectID currentUser.id with
                    | .error .notFound =>
                        { session := none, persisted := none, msg := .notProjectMember }
                    | .error .storage =>
                        { session := some state, persisted := none, msg := .errPropagated }
                    | .ok _ => persistEdit env { task with assignee := currentUser.id }
          else
            match extractMention newValue with
            | some username =>
                if username = env.botUserName then
                  { session := none, persisted := none, msg := .cannotAssignBot }
                else
                  match env.fetchUserByUsername username with
                  | .error .notFound =>
                      { session := none, persisted := none, msg := .userNotFoundByUsername }
                  | .error .storage =>
                      { session := some state, persisted := none, msg := .errPropagated }
                  | .ok assigneeUser =>
                      match env.getTaskByID state.taskID with
                      | .error _ =>
                          { session := some state, persisted := none, msg := .errPropagated }
                      | .ok projectTask =>
                          match env.fetchUserRoleInProject projectTask.projectID assigneeUser.id with
                          | .error .notFound =>
                              { session := none, persisted := none, msg := .notProjectMember }
                          | .error .storage =>
                              { session := some state, persisted := none, msg := .errPropagated }
                          | .ok _ => persistEdit env { task with assignee := assigneeUser.id }
            | none =>
                { session := some state, persisted := none, msg := .invalidFormat }

/-- handleTaskEditMessage (bot.go): trims the text, handles the cancel
keywords first (deleting the session unconditionally), rejects empty input
with a re-prompt, then delegates to updateTaskField. -/
def handleTaskEditMessage (env : Storage) (state : TaskEditState)
    (userID : Int) (rawText : String) : EditResult :=
  let text := trimSpace rawText
  if text = "/cancel" || text = "отмена" then
    { session := none, persisted := none, msg := .cancelledEdit }
  else if text = "" then
    { session := some state, persisted := none, msg := .emptyValue }
  else
    updateTaskField env state userID text

/-- The distinct user-visible replies (or propagated errors) of the project
rename / description-edit message handlers. -/
inductive ProjectMsg where
  | cancelledRename
  | cancelledDescriptionEdit
  | emptyTitle
  | renamed
  | renameFailed
  | descriptionUpdated
  | descriptionUpdateFailed
  | errPropagated
deriving DecidableEq, Repr

/-- Observable outcome of one project-flow handler call: whether the
boolean session map still holds the user's entry, the project persisted
through UpdateProject (if any), and the reply sent. -/
structure ProjectFlowResult where
  sessionActive : Bool
  persisted : Option Project
  msg : ProjectMsg
deriving DecidableEq, Repr

/-- handleProjectRenameMessage (bot.go): trims, handles the cancel keywords
first (deleting the session unconditionally), rejects empty input with a
re-prompt keeping the session, then fetches the project, applies the new
title and persists, clearing the session on every terminal path. -/
def handleProjectRenameMessage (env : Storage) (chatID : Int)
    (rawText : String) : ProjectFlowResult :=
  let newTitle := trimSpace rawText
  if newTitle = "/cancel" || newTitle = "отмена" then
    { sessionActive := false, persisted := none, msg := .cancelledRename }
  else if newTitle = "" then
    { sessionActive := true, persisted := none, msg := .emptyTitle }
  else
    match env.fetchProjectByChatID chatID with
    | .error _ => { sessionActive := false, persisted := none, msg := .errPropagated }
    | .ok project =>
        if env.updateProjectOk then
          { sessionActive := false
            persisted := some { project with title := newTitle }
            msg := .renamed }
        else
          { sessionActive := false, persisted := none, msg := .renameFailed }

/-- handleProjectDescriptionEditMessage (bot.go): trims, handles the cancel
keywords first (deleting the session unconditionally), then fetches the
project, applies the new description (the dash sentinel clears it) and
persists, clearing the session on every terminal path. -/
def handleProjectDescriptionEditMessage (env : Storage) (chatID : Int)
    (rawText : String) : ProjectFlowResult :=
  let newDescription := trimSpace rawText
  if newDescription = "/cancel" || newDescription = "отмена" then
    { sessionActive := false, persisted := none, msg := .cancelledDescriptionEdit }
  else
    match env.fetchProjectByChatID chatID with
    | .error _ => { sessionActive := false, persisted := none, msg := .errPropagated }
    | .ok project =>
        let project' :=
          { project with description := if newDescription = "-" then "" else newDescription }
        if env.updateProjectOk then
          { sessionActive := false, persisted := some project', msg := .descriptionUpdated }
        else
          { sessionActive := false, persisted := none, msg := .descriptionUpdateFailed }

/-- One project's membership rows of the user_projects table: user id paired
with the stored role, insertion order irrelevant to the claims. -/
abbrev Membership := List (Int × UserProjectRole)

/-- FetchUserRoleInProject at the storage level: the role row of the user,
if present. -/
def fetchRoleInMembership (ms : Membership) (userID : Int) : Option UserProjectRole :=
  (ms.find? (fun row => row.1 = userID)).map (fun row => row.2)

/-- CountUsersInProject at the storage level: the number of role rows of the
project. -/
def countUsersInProject (ms : Membership) : Nat :=
  ms.length

/-- The membership portion of createProjectCommand (bot.go): when the user
has no role row, the project's members are counted and the user is inserted
with Manager exactly when the count is zero, Member otherwise; an existing
row is returned unchanged. -/
def joinProject (ms : Membership) (userID : Int) : Membership × UserProjectRole :=
  match fetchRoleInMembership ms userID with
  | some userRole => (ms, userRole)
  | none =>
      let userRole :=
        if countUsersInProject ms = 0 then userProjectRoleManager
        else userProjectRoleMember
      ((userID, userRole) :: ms, userRole)

/-! Concrete fixtures used by the closed counterexamples and witnesses. -/

/-- A storage stub whose fetchers all fail with not-found; individual
fixtures override the calls a scenario needs. -/
def fixtureStorage : Storage where
  fetchProjectByChatID := fun _ => .error .notFound
  fetchUserByTgID := fun _ => .error .notFound
  fetchUserByID := fun _ => .error .notFound
  fetchUserByUsername := fun _ => .error .notFound
  fetchUserRoleInProject := fun _ _ => .error .notFound
  getTaskByID := fun _ => .error .notFound
  createTaskOk := true
  updateTaskOk := true
  updateProjectOk := true
  botUserName := "tasks_bot"
  now := 1700000000

def fixtureProject : Project :=
  { id := 3, tgChatID := 500, title := "Team", description := "", archived := false }

def fixtureUser : User :=
  { id := 7, tgUserID := 100, fullName := "Ann Lee", username := "ann", isActive := true }

def fixtureMember : User :=
  { id := 9, tgUserID := 200, fullName := "Bob Roy", username := "bob", isActive := true }

def fixtureTask : Task :=
  { NewTask 3 "Ship it" 100 with id := 1 }

/-! C4 fixtures: tasks around the three-day recency window. -/

def c4Now : Int := 1700000000

def doneOldTask : Task :=
  { NewTask 3 "old done" 100 with
    id := 11
    status := taskStatusDone
    updatedAt := c4Now - 4 * 86400 }

def doneFreshTask : Task :=
  { NewTask 3 "fresh done" 100 with
    id := 12
    status := taskStatusDone
    updatedAt := c4Now - 1 * 86400 }

def staleInProgressTask : Task :=
  { NewTask 3 "stale wip" 100 with
    id := 13
    status := taskStatusInProgress
    updatedAt := c4Now - 30 * 86400 }

/-- C4: filterRecentTasks keeps a task exactly when its status is neither
Done nor Cancelled or its last-updated timestamp is strictly after now
minus three days; in particular a Done task updated four days ago is
dropped, a Done task updated one day ago is kept, and an InProgress task
updated thirty days ago is kept. -/
theorem c4_filter_recent :
    (∀ (now : Int) (tasks : List Task) (task : Task),
        task ∈ filterRecentTasks now tasks ↔
          task ∈ tasks ∧
            ((task.status ≠ taskStatusDone ∧ task.status ≠ taskStatusCancelled) ∨
              now - 3 * 86400 < task.updatedAt)) ∧
    doneOldTask ∉ filterRecentTasks c4Now [doneOldTask, doneFreshTask, staleInProgressTask] ∧
    doneFreshTask ∈ filterRecentTasks c4Now [doneOldTask, doneFreshTask, staleInProgressTask] ∧
    staleInProgressTask ∈
      filterRecentTasks c4Now [doneOldTask, doneFreshTask, staleInProgressTask] := by
  refine ⟨?_, by decide, by decide, by decide⟩
  intro now tasks task
  simp [filterRecentTasks, keepRecent, List.mem_filter]

/-! C5 fixtures: the four-step creation run. -/

def c5S0 : TaskCreationState :=
  { step := .title, projectID := 3, title := "", description := "", createdBy := 100,
    assignee := 0 }

def c5S1 : TaskCreationState := { c5S0 with step := .description, title := "Fix bug" }

def c5S2 : TaskCreationState := { c5S1 with step := .assignee }

def c5S3 : TaskCreationState := { c5S2 with step := .deadline }

def c5Task : Task := creationTask c5S3 none

/-- C5: the creation flow run on title "Fix bug" followed by the dash skip
sentinel at the description, assignee and deadline steps persists a task
with status Todo, empty description, zero assignee and the zero deadline
timestamp, and clears the session. -/
theorem c5_creation_run :
    handleTaskCreationMessage fixtureStorage c5S0 100 "Fix bug" =
      { session := some c5S1, created := none, msg := .promptDescription } ∧
    handleTaskCreationMessage fixtureStorage c5S1 100 "-" =
      { session := some c5S2, created := none, msg := .promptAssignee } ∧
    handleTaskCreationMessage fixtureStorage c5S2 100 "-" =
      { session := some c5S3, created := none, msg := .promptDeadline } ∧
    handleTaskCreationMessage fixtureStorage c5S3 100 "-" =
      { session := none, created := some c5Task, msg := .createdOk } ∧
    c5Task.status = taskStatusTODO ∧
    c5Task.description = "" ∧
    c5Task.assignee = 0 ∧
    c5Task.deadline = none := by
  refine ⟨?_, ?_, ?_, ?_, rfl, rfl, rfl, rfl⟩ <;> decide

/-! C1 fixtures: a user with no role row, and a user with a Member row. -/

def c1NonMemberEnv : Storage :=
  { fixtureStorage with
    fetchProjectByChatID := fun _ => .ok fixtureProject
    fetchUserByTgID := fun _ => .ok fixtureUser
    fetchUserRoleInProject := fun _ _ => .error .notFound }

def c1MemberEnv : Storage :=
  { fixtureStorage with
    fetchProjectByChatID := fun _ => .ok fixtureProject
    fetchUserByTgID := fun _ => .ok fixtureUser
    fetchUserRoleInProject := fun _ _ => .ok userProjectRoleMember }

/-- C1 counterexample: with the project and user resolved but no role row
in the project, isUserManager returns the not-found lookup error rather
than false-with-no-error, and showProjectTasks propagates an internal
error instead of sending the denial message. -/
theorem c1_counterexample :
    isUserManager c1NonMemberEnv 500 100 = .error .notFound ∧
    isUserManager c1NonMemberEnv 500 100 ≠ .ok false ∧
    showProjectTasksAuth c1NonMemberEnv 500 100 = .err .notFound ∧
    showProjectTasksAuth c1NonMemberEnv 500 100 ≠ .denied := by
  refine ⟨rfl, ?_, rfl, by decide⟩
  intro h
  rw [show isUserManager c1NonMemberEnv 500 100 = .error .notFound from rfl] at h
  exact Except.noConfusion h

/-- C1 (amended): isUserManager answers false with no error only for a user
holding a non-manager role row; a missing role row is propagated as the
not-found error, so showProjectTasks denies a plain member but returns an
internal error for a non-member. -/
theorem c1_manager_check (env : Storage) (chatID userID : Int)
    (project : Project) (user : User)
    (hp : env.fetchProjectByChatID chatID = .ok project)
    (hu : env.fetchUserByTgID userID = .ok user) :
    (env.fetchUserRoleInProject project.id user.id = .ok userProjectRoleMember →
       isUserManager env chatID userID = .ok false ∧
       showProjectTasksAuth env chatID userID = .denied) ∧
    (env.fetchUserRoleInProject project.id user.id = .error .notFound →
       isUserManager env chatID userID = .error .notFound ∧
       showProjectTasksAuth env chatID userID = .err .notFound) := by
  constructor <;> intro hr <;>
    simp [isUserManager, showProjectTasksAuth, hp, hu, hr,
      userProjectRoleMember, userProjectRoleManager]

/-- C1 witness: the amended theorem at the Member fixture. -/
theorem c1_manager_check_witness :
    isUserManager c1MemberEnv 500 100 = .ok false ∧
    showProjectTasksAuth c1MemberEnv 500 100 = .denied :=
  (c1_manager_check c1MemberEnv 500 100 fixtureProject fixtureUser rfl rfl).1 rfl

/-! C2 / C3 fixtures: an edit environment that resolves the task. -/

def editEnv : Storage :=
  { fixtureStorage with getTaskByID := fun _ => .ok fixtureTask }

/-- C2 counterexample: in the assignee field edit, mentioning the bot's own
identity is a validation failure, yet the edit session is cleared rather
than preserved (and nothing is persisted). -/
theorem c2_counterexample :
    (updateTaskField editEnv { field := .assignee, taskID := 1 } 100 "@tasks_bot").msg =
      .cannotAssignBot ∧
    (updateTaskField editEnv { field := .assignee, taskID := 1 } 100 "@tasks_bot").session =
      none ∧
    (updateTaskField editEnv { field := .assignee, taskID := 1 } 100 "@tasks_bot").persisted =
      none := ⟨rfl, rfl, rfl⟩

/-- C2 (amended): the assignee-edit validation failures never persist a
change, but the bot-identity, unknown-username and non-member failures
clear the edit session; only the no-mention invalid-format failure
preserves it. -/
theorem c2_edit_validation (env : Storage) (state : TaskEditState)
    (userID : Int) (newValue : String) :
    (((updateTaskField env state userID newValue).msg = .cannotAssignBot ∨
      (updateTaskField env state userID newValue).msg = .userNotFoundByUsername ∨
      (updateTaskField env state userID newValue).msg = .notProjectMember) →
        (updateTaskField env state userID newValue).session = none ∧
        (updateTaskField env state userID newValue).persisted = none) ∧
    ((updateTaskField env state userID newValue).msg = .invalidFormat →
        (updateTaskField env state userID newValue).session = some state ∧
        (updateTaskField env state userID newValue).persisted = none) := by
  unfold updateTaskField persistEdit
  repeat' split <;> first
    | (constructor <;> intro h <;> simp_all)
    | simp_all

/-- C2 witness: the amended theorem at the bot-mention fixture. -/
theorem c2_edit_validation_witness :
    (updateTaskField editEnv { field := .assignee, taskID := 1 } 100 "@tasks_bot").session =
      none ∧
    (updateTaskField editEnv { field := .assignee, taskID := 1 } 100 "@tasks_bot").persisted =
      none :=
  (c2_edit_validation editEnv { field := .assignee, taskID := 1 } 100 "@tasks_bot").1
    (Or.inl rfl)

def c3State : TaskEditState := { field := .deadline, taskID := 1 }

/-- C3: a deadline field edit never parses the entered text and persists
the fetched task unchanged while confirming an update; at the failing
input "25.12.2030" the stored deadline is still the zero value. -/
theorem c3_deadline_edit_ignored :
    (∀ newValue : String,
        updateTaskField editEnv c3State 100 newValue =
          { session := none, persisted := some fixtureTask, msg := .updated }) ∧
    fixtureTask.deadline = none ∧
    updateTaskField editEnv c3State 100 "25.12.2030" =
      { session := none, persisted := some fixtureTask, msg := .updated } :=
  ⟨fun _ => rfl, rfl, rfl⟩

def c6State : TaskCreationState :=
  { step := .deadline, projectID := 3, title := "Fix bug", description := "",
    createdBy := 100, assignee := 0 }

/-- C6: at the creation deadline step, a parsed date strictly before the
truncated current day is rejected leaving the session at the deadline step
with nothing persisted, while a date equal to the current day is accepted
and stored shifted to 23:59:59 of that day. -/
theorem c6_deadline_validation (env : Storage) (state : TaskCreationState)
    (s : String) (d : Int)
    (hstep : state.step = .deadline)
    (hparse : parseDDMMYYYY s = some d)
    (hok : env.createTaskOk = true) :
    (d < truncateDay env.now →
       finalizeTaskCreation env state s =
         { session := some state, created := none, msg := .pastDeadline }) ∧
    (d = truncateDay env.now →
       finalizeTaskCreation env state s =
         { session := none
           created := some (creationTask state (some (d + (23 * 3600 + 59 * 60 + 59))))
           msg := .createdOk }) := by
  have hdash : s ≠ "-" := by
    intro h; rw [h] at hparse; exact Option.noConfusion hparse
  have hempty : s ≠ "" := by
    intro h; rw [h] at hparse; exact Option.noConfusion hparse
  constructor <;> intro hlt <;>
    simp [finalizeTaskCreation, persistCreation, creationTask, NewTask,
      hdash, hempty, hparse, hlt, hok]

/-- C6 witness: the acceptance branch on the date that equals the current
day of the fixture clock. -/
theorem c6_deadline_validation_witness :
    finalizeTaskCreation fixtureStorage c6State "14.11.2023" =
      { session := none
        created := some (creationTask c6State (some (1699920000 + (23 * 3600 + 59 * 60 + 59))))
        msg := .createdOk } :=
  (c6_deadline_validation fixtureStorage c6State "14.11.2023" 1699920000 rfl rfl rfl).2 rfl

def assigneeState : TaskCreationState :=
  { step := .assignee, projectID := 3, title := "Fix bug", description := "",
    createdBy := 100, assignee := 0 }

def c7Env : Storage :=
  { fixtureStorage with
    fetchUserByUsername := fun _ => .ok fixtureMember
    fetchUserRoleInProject := fun _ _ => .error .notFound }

/-- C7: at the creation assignee step, a mention resolving to a user with
no role row in the project produces the non-member error reply, leaves the
session at the assignee step with the assignee unrecorded, and persists
nothing. -/
theorem c7_assignee_nonmember (env : Storage) (state : TaskCreationState)
    (userID : Int) (text username : String) (assigneeUser : User)
    (hstep : state.step = .assignee)
    (hdash : text ≠ "-")
    (hself : isSelfAssignment text = false)
    (hm : extractMention text = some username)
    (hbot : username ≠ env.botUserName)
    (hu : env.fetchUserByUsername username = .ok assigneeUser)
    (hr : env.fetchUserRoleInProject state.projectID assigneeUser.id = .error .notFound) :
    handleAssigneeStep env state userID text =
      { session := some state, created := none, msg := .assigneeNotMember } ∧
    state.step = .assignee := by
  have hempty : text ≠ "" := by
    intro h; rw [h] at hm; exact Option.noConfusion hm
  exact ⟨by simp [handleAssigneeStep, hdash, hempty, hself, hm, hbot, hu, hr], hstep⟩

/-- C7 witness: the non-member mention fixture. -/
theorem c7_assignee_nonmember_witness :
    handleAssigneeStep c7Env assigneeState 100 "@bob" =
      { session := some assigneeState, created := none, msg := .assigneeNotMember } :=
  (c7_assignee_nonmember c7Env assigneeState 100 "@bob" "bob" fixtureMember rfl
    (by decide) rfl rfl (by decide) rfl rfl).1

/-- C8: a user joining a project without an existing role row is granted
Manager exactly when the project's membership count is zero at that
moment and Member otherwise, independently of the user's identity; in
particular the first user ever added becomes Manager and every later
distinct joiner becomes Member. -/
theorem c8_first_member_manager (ms : Membership) (userID : Int)
    (h : fetchRoleInMembership ms userID = none) :
    ((joinProject ms userID).2 =
       if countUsersInProject ms = 0 then userProjectRoleManager
       else userProjectRoleMember) ∧
    (ms = [] → (joinProject ms userID).2 = userProjectRoleManager) ∧
    (ms ≠ [] → (joinProject ms userID).2 = userProjectRoleMember) ∧
    (∀ otherID : Int, fetchRoleInMembership ms otherID = none →
        (joinProject ms userID).2 = (joinProject ms otherID).2) := by
  refine ⟨by simp [joinProject, h], ?_, ?_, ?_⟩
  · rintro rfl
    simp [joinProject, fetchRoleInMembership, countUsersInProject]
  · intro hne
    simp [joinProject, h, countUsersInProject, List.length_eq_zero, hne]
  · intro otherID ho
    simp [joinProject, h, ho]

/-- C8 witness: the first joiner of an empty membership becomes Manager. -/
theorem c8_first_member_manager_witness :
    (joinProject [] 5).2 = userProjectRoleManager :=
  (c8_first_member_manager [] 5 rfl).2.1 rfl

/-- C9: a message whose trimmed text is the cancel command or its localized
equivalent unconditionally clears the session of each of the four text
flows with a cancellation reply and nothing persisted, whatever the step
or storage state. -/
theorem c9_cancel_clears_all_flows (env : Storage)
    (cstate : TaskCreationState) (estate : TaskEditState)
    (userID chatID : Int) (rawText : String)
    (h : trimSpace rawText = "/cancel" ∨ trimSpace rawText = "отмена") :
    handleTaskCreationMessage env cstate userID rawText =
      { session := none, created := none, msg := .cancelledCreation } ∧
    handleTaskEditMessage env estate userID rawText =
      { session := none, persisted := none, msg := .cancelledEdit } ∧
    handleProjectRenameMessage env chatID rawText =
      { sessionActive := false, persisted := none, msg := .cancelledRename } ∧
    handleProjectDescriptionEditMessage env chatID rawText =
      { sessionActive := false, persisted := none, msg := .cancelledDescriptionEdit } := by
  rcases h with h | h <;>
    simp [handleTaskCreationMessage, handleTaskEditMessage,
      handleProjectRenameMessage, handleProjectDescriptionEditMessage, h]

/-- C9 witness: the cancel command with surrounding whitespace, sent during
the title step of creation and the title field edit. -/
theorem c9_cancel_witness :
    handleTaskCreationMessage fixtureStorage c5S0 100 " /cancel " =
      { session := none, created := none, msg := .cancelledCreation } ∧
    handleTaskEditMessage fixtureStorage { field := .title, taskID := 1 } 100 " /cancel " =
      { session := none, persisted := none, msg := .cancelledEdit } ∧
    handleProjectRenameMessage fixtureStorage 500 " /cancel " =
      { sessionActive := false, persisted := none, msg := .cancelledRename } ∧
    handleProjectDescriptionEditMessage fixtureStorage 500 " /cancel " =
      { sessionActive := false, persisted := none, msg := .cancelledDescriptionEdit } :=
  c9_cancel_clears_all_flows fixtureStorage c5S0 { field := .title, taskID := 1 }
    100 500 " /cancel " (Or.inl (by decide))

/-- C10: at the creation assignee step, non-empty text that is not the skip
sentinel, not a self-assignment shortcut and holds no mention token is
silently accepted: the flow advances to the deadline step with the
assignee unchanged and no error reply. -/
theorem c10_bare_text_skips_assignee (env : Storage) (state : TaskCreationState)
    (userID : Int) (text : String)
    (hstep : state.step = .assignee)
    (hdash : text ≠ "-") (hempty : text ≠ "")
    (hself : isSelfAssignment text = false)
    (hm : extractMention text = none) :
    handleAssigneeStep env state userID text =
      { session := some { state with step := .deadline }, created := none,
        msg := .promptDeadline } ∧
    ({ state with step := TaskCreationStep.deadline }).assignee = state.assignee := by
  refine ⟨?_, rfl⟩
  simp [handleAssigneeStep, advanceToDeadline, hdash, hempty, hself, hm]

/-- C10 witness: the bare name input at the assignee step. -/
theorem c10_bare_text_skips_assignee_witness :
    handleAssigneeStep fixtureStorage assigneeState 100 "bob" =
      { session := some { assigneeState with step := .deadline }, created := none,
        msg := .promptDeadline } :=
  (c10_bare_text_skips_assignee fixtureStorage assigneeState 100 "bob" rfl
    (by decide) (by decide) rfl rfl).1

end TasksBot
